import Mathlib

/-!
Shallow embedding of `src/webhook/hotline_server.py` (the AI hotline webhook
server): backend clients (`call_tts`, `call_llm`, `call_langflow`), the two
provider turn handlers (`twilio_gather`, `jambonz_gather`), the greeting
handlers, and the audio artifact store (`call_tts` writes, `serve_audio_path`
reads).  HTTP backends are modelled as functions from the outbound request to
an `HttpResult`; `HttpResult.failure` stands for any exception raised by the
`requests` call or by `raise_for_status` / `response.json()` (timeout,
connection error, non-2xx status, unparsable body).  Unhandled Python
exceptions in a handler are modelled by `Except.error`.
-/

namespace Hotline

/-- JSON-like values exchanged with the HTTP backends and webhook payloads.
Numbers are modelled as exact rationals. -/
inductive JVal : Type where
  | jnull : JVal
  | jbool (b : Bool) : JVal
  | jnum (q : ℚ) : JVal
  | jstr (s : String) : JVal
  | jarr (elems : List JVal) : JVal
  | jobj (fields : List (String × JVal)) : JVal

/-- First-match association lookup on the fields of a JSON object. -/
def jlookup : List (String × JVal) → String → Option JVal
  | [], _ => none
  | (k, v) :: rest, key => if k = key then some v else jlookup rest key

/-- Python `d.get(key, default)`: valid only on a dict; on any other value the
attribute access raises (AttributeError), modelled as `Except.error`. -/
def dictGetD : JVal → String → JVal → Except Unit JVal
  | .jobj fields, key, dflt => .ok ((jlookup fields key).getD dflt)
  | _, _, _ => .error ()

/-- Python `xs[0]`: succeeds only on a nonempty list; an empty list raises
IndexError and a non-list either raises here or at the following attribute
access, so both are modelled as `Except.error`. -/
def index0 : JVal → Except Unit JVal
  | .jarr (x :: _) => .ok x
  | _ => .error ()

/-- Python truthiness of a JSON value (`if outputs:`, `payload or {}`). -/
def JVal.truthy : JVal → Bool
  | .jnull => false
  | .jbool b => b
  | .jnum q => q ≠ 0
  | .jstr s => s ≠ ""
  | .jarr elems => !elems.isEmpty
  | .jobj fields => !fields.isEmpty

/-- View of a JSON value as reply text.  Python passes the raw value into the
response document; only string leaves occur in the behaviours the claims
exercise, so the `str()` rendering of non-string values is abstracted. -/
def JVal.asText : JVal → String
  | .jstr s => s
  | _ => ""

/-- Field access on a JSON object, `none` on a non-object. -/
def jget : JVal → String → Option JVal
  | .jobj fields, key => jlookup fields key
  | _, _ => none

/-- Key list of a JSON object. -/
def jobjKeys : JVal → List String
  | .jobj fields => fields.map Prod.fst
  | _ => []

/-- One outbound HTTP request of a backend client. -/
structure HttpRequest : Type where
  method : String
  url : String
  body : JVal
  timeoutSecs : Nat

/-- Result of one outbound backend call.  `failure` covers every exception the
surrounding `try` catches: timeout, connection error, non-2xx status
(`raise_for_status`) and an unparsable response body (`response.json()`). -/
inductive HttpResult (α : Type) : Type where
  | ok (value : α) : HttpResult α
  | failure : HttpResult α

/-- Process configuration, read once at start (`PORT`, `BASE_URL`, the four
service URLs, `LANGFLOW_FLOW_ID`, `SYSTEM_PROMPT`). -/
structure Env : Type where
  baseUrl : String
  ttsUrl : String
  llmUrl : String
  langflowUrl : String
  langflowFlowId : String
  systemPrompt : String

/-- Behaviour of the three HTTP backends during one handler invocation, plus
the `uuid.uuid4()` value drawn for this turn's audio artifact.  Each handler
performs at most one call to each backend. -/
structure Backends : Type where
  tts : HttpRequest → HttpResult (List Nat)
  llm : HttpRequest → HttpResult JVal
  langflow : HttpRequest → HttpResult JVal
  freshId : String

/-- The audio cache directory `AUDIO_DIR`, as the association of filenames
inside the directory to file bytes; a write prepends.  Reads go through the
filesystem path view `serve_audio_path` below, in which each cached entry
`(name, bytes)` is the regular file `AUDIO_DIR ++ [name]`. -/
structure AudioStore : Type where
  files : List (String × List Nat)

/-- The request `call_tts` sends: `POST {TTS_URL}/tts` with body
`{text, language}` and a 30-second timeout. -/
def ttsRequest (env : Env) (text language : String) : HttpRequest :=
  { method := "POST"
    url := env.ttsUrl ++ "/tts"
    body := .jobj [("text", .jstr text), ("language", .jstr language)]
    timeoutSecs := 30 }

/-- The retrieval URL `call_tts` returns for a stored artifact. -/
def audioUrl (env : Env) (b : Backends) : String :=
  env.baseUrl ++ "/audio/" ++ (b.freshId ++ ".wav")

/-- `call_tts`: synthesize `text`, write the bytes to
`AUDIO_DIR / f"{audio_id}.wav"` and return the retrieval URL; on any exception
return `None` (Python) / `none`, leaving the store unchanged. -/
def call_tts (env : Env) (b : Backends) (store : AudioStore) (text : String) :
    Option String × AudioStore :=
  match b.tts (ttsRequest env text "en") with
  | .ok bytes =>
      (some (audioUrl env b), ⟨(b.freshId ++ ".wav", bytes) :: store.files⟩)
  | .failure => (none, store)

/-- Fixed reply of `call_llm` when the `response` field is absent. -/
def llmDefaultText : String := "I couldn't process that."

/-- Fixed apology `call_llm` returns when the Ollama call fails. -/
def llmApology : String := "I'm sorry, I had trouble understanding. Could you repeat that?"

/-- Fixed apology `call_langflow` returns when the Langflow call fails or its
body raises during extraction. -/
def langflowApology : String := "I'm having trouble with my AI workflow. Please try again."

/-- Fixed reply of `call_langflow` when the `outputs` list is falsy. -/
def langflowNoOutputsText : String := "I couldn't process that through the workflow."

/-- The request `call_llm` sends on the direct (Ollama) path:
`POST {LLM_URL}/api/generate` with body
`{model, prompt, stream, options:{temperature, num_predict}}` and a
60-second timeout. -/
def llmRequest (env : Env) (message : String) : HttpRequest :=
  { method := "POST"
    url := env.llmUrl ++ "/api/generate"
    body := .jobj
      [("model", .jstr "llama3.1:8b"),
       ("prompt", .jstr (env.systemPrompt ++ "\n\nUser: " ++ message ++ "\nAssistant:")),
       ("stream", .jbool false),
       ("options", .jobj
         [("temperature", .jnum ((7 : ℚ) / 10)),
          ("num_predict", .jnum 150)])]
    timeoutSecs := 60 }

/-- The `options` object of an outbound request body. -/
def llmOptionsOf (r : HttpRequest) : JVal :=
  (jget r.body "options").getD .jnull

/-- The request `call_langflow` sends:
`POST {LANGFLOW_URL}/api/v1/run/{LANGFLOW_FLOW_ID}` with body
`{input_value, output_type, input_type}` and a 60-second timeout. -/
def langflowRequest (env : Env) (message : String) : HttpRequest :=
  { method := "POST"
    url := env.langflowUrl ++ "/api/v1/run/" ++ env.langflowFlowId
    body := .jobj
      [("input_value", .jstr message),
       ("output_type", .jstr "chat"),
       ("input_type", .jstr "chat")]
    timeoutSecs := 60 }

/-- Text extraction from a parsed Langflow response body:
`result.get("outputs", [{}])`, the truthiness test, then
`outputs[0].get("outputs", [{}])[0].get("results", {}).get("message", {}).get("text", "")`.
An `Except.error` is an exception inside the `try` (IndexError on an empty
inner list, AttributeError on a non-dict), caught by the caller. -/
def langflowExtract (result : JVal) : Except Unit JVal := do
  let outputs ← dictGetD result "outputs" (.jarr [.jobj []])
  if outputs.truthy then do
    let o0 ← index0 outputs
    let inner ← dictGetD o0 "outputs" (.jarr [.jobj []])
    let i0 ← index0 inner
    let results ← dictGetD i0 "results" (.jobj [])
    let message ← dictGetD results "message" (.jobj [])
    dictGetD message "text" (.jstr "")
  else
    pure (.jstr langflowNoOutputsText)

/-- `call_langflow`: run the workflow and extract the reply text; any caught
exception yields the fixed apology. -/
def call_langflow (env : Env) (b : Backends) (message : String) : String :=
  match b.langflow (langflowRequest env message) with
  | .failure => langflowApology
  | .ok result =>
      match langflowExtract result with
      | .ok v => v.asText
      | .error _ => langflowApology

/-- `call_llm`: when `LANGFLOW_FLOW_ID` is set delegate to `call_langflow`,
otherwise call Ollama and read `response.json().get("response", default)`;
any caught exception yields the fixed apology. -/
def call_llm (env : Env) (b : Backends) (message : String) : String :=
  if env.langflowFlowId ≠ "" then
    call_langflow env b message
  else
    match b.llm (llmRequest env message) with
    | .ok result =>
        match dictGetD result "response" (.jstr llmDefaultText) with
        | .ok v => v.asText
        | .error _ => llmApology
    | .failure => llmApology

/-- Boolean test that `needle` starts the list `hay` (character comparison). -/
def charsHaveStart : List Char → List Char → Bool
  | [], _ => true
  | _ :: _, [] => false
  | a :: as, b :: bs => a == b && charsHaveStart as bs

/-- Boolean test that `needle` occurs contiguously inside the second list. -/
def charsHaveSub (needle : List Char) : List Char → Bool
  | [] => needle.isEmpty
  | c :: rest => charsHaveStart needle (c :: rest) || charsHaveSub needle rest

/-- Python `phrase in text.lower()`: the utterance is lowercased, the phrase
literal is already lowercase. -/
def phraseIn (phrase text : String) : Bool :=
  charsHaveSub phrase.data (text.data.map Char.toLower)

/-- Closing-phrase list of the Twilio `/gather` handler. -/
def twilio_goodbye_phrases : List String :=
  ["goodbye", "bye", "hang up", "end call", "that's all"]

/-- Closing-phrase list of the Jambonz `/jambonz-gather` handler. -/
def jambonz_goodbye_phrases : List String :=
  ["goodbye", "bye", "hang up", "end call"]

/-- Python `any(phrase in text.lower() for phrase in phrases)`. -/
def matchesGoodbye (phrases : List String) (text : String) : Bool :=
  phrases.any fun p => phraseIn p text

/-- One TwiML verb of a Twilio control document (the attributes the dialogue
logic does not vary — `speechTimeout`, `language`, `voice` — are elided). -/
inductive TwimlVerb : Type where
  | play (url : String) : TwimlVerb
  | say (text : String) : TwimlVerb
  | gather (action : String) (nested : List TwimlVerb) : TwimlVerb
  | hangup : TwimlVerb

/-- One Jambonz verb of a JSON control document (static synthesizer,
recognizer and timeout configuration elided). -/
inductive JambonzVerb : Type where
  | play (url : String) : JambonzVerb
  | say (text : String) : JambonzVerb
  | gather (actionHook : String) : JambonzVerb
  | hangup : JambonzVerb

/-- Fixed greeting of both greeting handlers. -/
def greetingText : String := "Hello! I'm your AI assistant. How can I help you today?"

/-- Fixed no-speech fallback of both greeting documents. -/
def noHearText : String := "I didn't hear anything. Goodbye!"

/-- Fixed re-prompt of the Twilio turn handler on an empty utterance. -/
def twilioReprompt : String := "I didn't catch that. Could you repeat?"

/-- Fixed text after a second silence in the Twilio empty-utterance document. -/
def twilioStillNothing : String := "Still nothing. Goodbye!"

/-- Fixed farewell of the Twilio turn handler. -/
def twilioFarewell : String := "Thank you for calling! Have a great day. Goodbye!"

/-- Fixed gather-timeout prompt of the Twilio non-terminal document. -/
def stillThereText : String := "Are you still there?"

/-- Fixed re-prompt of the Jambonz turn handler on an empty utterance. -/
def jambonzReprompt : String := "I didn't catch that. Could you repeat?"

/-- Fixed farewell of the Jambonz turn handler. -/
def jambonzFarewell : String := "Thank you for calling! Goodbye!"

/-- Result of one turn handler: the control document and the audio cache as
left behind (unchanged when no artifact was written). -/
structure TwilioTurnResult : Type where
  doc : List TwimlVerb
  store : AudioStore

/-- Result of one Jambonz handler invocation. -/
structure JambonzTurnResult : Type where
  doc : List JambonzVerb
  store : AudioStore

/-- The Twilio `/gather` handler: empty speech re-prompts without touching a
backend; a closing phrase yields farewell plus hangup; otherwise the LLM reply
is synthesized and played (or said when synthesis failed) before gathering
again. -/
def twilio_gather (env : Env) (b : Backends) (store : AudioStore)
    (speechResult : String) : TwilioTurnResult :=
  if speechResult = "" then
    { doc := [.say twilioReprompt,
              .gather (env.baseUrl ++ "/gather") [],
              .say twilioStillNothing,
              .hangup]
      store := store }
  else if matchesGoodbye twilio_goodbye_phrases speechResult then
    match call_tts env b store twilioFarewell with
    | (some url, st2) => { doc := [.play url, .hangup], store := st2 }
    | (none, st2) => { doc := [.say twilioFarewell, .hangup], store := st2 }
  else
    match call_tts env b store (call_llm env b speechResult) with
    | (some url, st2) =>
        { doc := [.play url,
                  .gather (env.baseUrl ++ "/gather") [],
                  .say stillThereText,
                  .hangup]
          store := st2 }
    | (none, st2) =>
        { doc := [.say (call_llm env b speechResult),
                  .gather (env.baseUrl ++ "/gather") [],
                  .say stillThereText,
                  .hangup]
          store := st2 }

/-- The Twilio `/voice` greeting handler (its gather nests `I'm listening.`). -/
def twilio_voice (env : Env) (b : Backends) (store : AudioStore) : TwilioTurnResult :=
  match call_tts env b store greetingText with
  | (some url, st2) =>
      { doc := [.play url,
                .gather (env.baseUrl ++ "/gather") [.say "I'm listening."],
                .say noHearText,
                .hangup]
        store := st2 }
  | (none, st2) =>
      { doc := [.say greetingText,
                .gather (env.baseUrl ++ "/gather") [.say "I'm listening."],
                .say noHearText,
                .hangup]
        store := st2 }

/-- The pure turn logic of the Jambonz `/jambonz-gather` handler, after the
utterance text has been decoded from the payload. -/
def jambonz_turn (env : Env) (b : Backends) (store : AudioStore)
    (speechText : String) : JambonzTurnResult :=
  if speechText = "" then
    { doc := [.say jambonzReprompt,
              .gather (env.baseUrl ++ "/jambonz-gather"),
              .hangup]
      store := store }
  else if matchesGoodbye jambonz_goodbye_phrases speechText then
    match call_tts env b store jambonzFarewell with
    | (some url, st2) => { doc := [.play url, .hangup], store := st2 }
    | (none, st2) => { doc := [.say jambonzFarewell, .hangup], store := st2 }
  else
    match call_tts env b store (call_llm env b speechText) with
    | (some url, st2) =>
        { doc := [.play url,
                  .gather (env.baseUrl ++ "/jambonz-gather"),
                  .hangup]
          store := st2 }
    | (none, st2) =>
        { doc := [.say (call_llm env b speechText),
                  .gather (env.baseUrl ++ "/jambonz-gather"),
                  .hangup]
          store := st2 }

/-- Decode of the Jambonz gather payload:
`payload = request.json or {}`, then
`payload.get("speech", {}).get("alternatives", [{}])[0].get("transcript", "")`.
An `Except.error` is an exception with no handler in the route (the
IndexError when `alternatives` is present but empty). -/
def decodeJambonzSpeech (payload : JVal) : Except Unit String := do
  let p := if payload.truthy then payload else .jobj []
  let speech ← dictGetD p "speech" (.jobj [])
  let alts ← dictGetD speech "alternatives" (.jarr [.jobj []])
  let a0 ← index0 alts
  let t ← dictGetD a0 "transcript" (.jstr "")
  pure t.asText

/-- The Jambonz `/jambonz-gather` handler: decode, then the turn logic.  A
decode exception escapes the handler (no `try` surrounds it), leaving the
provider with an HTTP 500 and no verb document. -/
def jambonz_gather (env : Env) (b : Backends) (store : AudioStore)
    (payload : JVal) : Except Unit JambonzTurnResult := do
  let s ← decodeJambonzSpeech payload
  pure (jambonz_turn env b store s)

/-- The Jambonz `/jambonz` greeting handler. -/
def jambonz_webhook (env : Env) (b : Backends) (store : AudioStore)
    (payload : JVal) : Except Unit JambonzTurnResult := do
  let p := if payload.truthy then payload else .jobj []
  let _callSid ← dictGetD p "call_sid" (.jstr "unknown")
  let _fromNumber ← dictGetD p "from" (.jstr "unknown")
  match call_tts env b store greetingText with
  | (some url, st2) =>
      pure { doc := [.play url,
                     .gather (env.baseUrl ++ "/jambonz-gather"),
                     .say noHearText,
                     .hangup]
             store := st2 }
  | (none, st2) =>
      pure { doc := [.say greetingText,
                     .gather (env.baseUrl ++ "/jambonz-gather"),
                     .say noHearText,
                     .hangup]
             store := st2 }

/-- One HTTP response of the audio retrieval route: either file bytes with a
mimetype, or a JSON error document with a status code. -/
inductive HttpResp : Type where
  | fileResp (bytes : List Nat) (mimetype : String) : HttpResp
  | jsonErr (status : Nat) (body : JVal) : HttpResp

/-- Flask route match for `GET /audio/<filename>`: the default string
converter accepts any nonempty segment without a path separator. -/
def routeMatchesAudio (filename : String) : Bool :=
  (filename ≠ "" : Bool) && !(filename.data.contains '/')

/-- Filesystem view for the retrieval route: absolute paths as component
lists; `regular` holds the regular files with their bytes, `dirs` the
directories.  `Path.exists()` is true for both. -/
structure Fs : Type where
  regular : List (List String × List Nat)
  dirs : List (List String)

/-- First-match lookup of a regular file by path. -/
def fsLookup : List (List String × List Nat) → List String → Option (List Nat)
  | [], _ => none
  | (p, bytes) :: rest, key => if p = key then some bytes else fsLookup rest key

/-- Resolution of `AUDIO_DIR / seg` by the filesystem for one path segment
(no separator inside `seg`): `.` stays, `..` is the parent, anything else a
child entry. -/
def resolveSegment (dir : List String) (seg : String) : List String :=
  if seg = "." then dir
  else if seg = ".." then dir.dropLast
  else dir ++ [seg]

/-- The `GET /audio/<filename>` handler over the path view: `send_file` of an
existing regular file with mimetype `audio/wav`; a path that exists but is a
directory makes `send_file` raise (`Except.error`, an unhandled fault);
otherwise the structured 404. -/
def serve_audio_path (fs : Fs) (audioDir : List String) (filename : String) :
    Except Unit HttpResp :=
  match fsLookup fs.regular (resolveSegment audioDir filename) with
  | some bytes => .ok (.fileResp bytes "audio/wav")
  | none =>
      if resolveSegment audioDir filename ∈ fs.dirs then .error ()
      else .ok (.jsonErr 404 (.jobj [("error", .jstr "Audio not found")]))

/-- Sample configuration (the source defaults). -/
def env0 : Env :=
  { baseUrl := "http://localhost:8080"
    ttsUrl := "http://localhost:5000"
    llmUrl := "http://localhost:11434"
    langflowUrl := "http://localhost:7860"
    langflowFlowId := ""
    systemPrompt := "You are a helpful AI voice assistant." }

/-- Sample backends on which every call succeeds. -/
def okBackends : Backends :=
  { tts := fun _ => .ok [82, 73, 70, 70]
    llm := fun _ => .ok (.jobj [("response", .jstr "Sure!")])
    langflow := fun _ => .ok (.jobj [])
    freshId := "artifact-1" }

/-- Empty sample audio cache. -/
def store0 : AudioStore := ⟨[]⟩

/-- Sample filesystem for the retrieval route: one regular file with a
non-wav extension inside the audio directory, the directory itself and its
parent present as directories. -/
def fs0 : Fs :=
  { regular := [(["srv", "audio_cache", "x.mp3"], [9, 9])]
    dirs := [["srv", "audio_cache"], ["srv"]] }

/-- How many `play` verbs a TwiML document holds. -/
def countPlayTw (d : List TwimlVerb) : Nat :=
  d.countP fun v => match v with | .play _ => true | _ => false

/-- How many `play` verbs a Jambonz document holds. -/
def countPlayJz (d : List JambonzVerb) : Nat :=
  d.countP fun v => match v with | .play _ => true | _ => false

/-- Whether a TwiML document gathers further speech. -/
def hasGatherTw (d : List TwimlVerb) : Bool :=
  d.any fun v => match v with | .gather _ _ => true | _ => false

/-- Whether a Jambonz document gathers further speech. -/
def hasGatherJz (d : List JambonzVerb) : Bool :=
  d.any fun v => match v with | .gather _ => true | _ => false

/-- A terminal Twilio document: play-or-say of the farewell, then hangup. -/
def TerminalTw (d : List TwimlVerb) : Prop :=
  (∃ u, d = [.play u, .hangup]) ∨ d = [.say twilioFarewell, .hangup]

/-- A terminal Jambonz document: play-or-say of the farewell, then hangup. -/
def TerminalJz (d : List JambonzVerb) : Prop :=
  (∃ u, d = [.play u, .hangup]) ∨ d = [.say jambonzFarewell, .hangup]

/-- A non-terminal Twilio document speaking `text` (played at `u` when the
artifact was stored, said natively otherwise) and gathering again. -/
def NonTerminalTw (env : Env) (d : List TwimlVerb) (text u : String) : Prop :=
  d = [.play u, .gather (env.baseUrl ++ "/gather") [], .say stillThereText, .hangup] ∨
  d = [.say text, .gather (env.baseUrl ++ "/gather") [], .say stillThereText, .hangup]

/-- A non-terminal Jambonz document speaking `text` and gathering again. -/
def NonTerminalJz (env : Env) (d : List JambonzVerb) (text u : String) : Prop :=
  d = [.play u, .gather (env.baseUrl ++ "/jambonz-gather"), .hangup] ∨
  d = [.say text, .gather (env.baseUrl ++ "/jambonz-gather"), .hangup]

/-- Whether some `say` verb of a TwiML document contains `t`, both sides
lowercased. -/
def twimlSayContainsCI (d : List TwimlVerb) (t : String) : Bool :=
  d.any fun v => match v with
    | .say s => charsHaveSub (t.data.map Char.toLower) (s.data.map Char.toLower)
    | _ => false

/-- Whether some `say` verb of a Jambonz document contains `t`, both sides
lowercased. -/
def jzSayContainsCI (d : List JambonzVerb) (t : String) : Bool :=
  d.any fun v => match v with
    | .say s => charsHaveSub (t.data.map Char.toLower) (s.data.map Char.toLower)
    | _ => false

lemma call_tts_ok (env : Env) (b : Backends) (store : AudioStore) (text : String)
    (bytes : List Nat) (h : b.tts (ttsRequest env text "en") = .ok bytes) :
    call_tts env b store text =
      (some (audioUrl env b), ⟨(b.freshId ++ ".wav", bytes) :: store.files⟩) := by
  unfold call_tts
  rw [h]

lemma call_tts_fail (env : Env) (b : Backends) (store : AudioStore) (text : String)
    (h : b.tts (ttsRequest env text "en") = .failure) :
    call_tts env b store text = (none, store) := by
  unfold call_tts
  rw [h]

lemma call_llm_direct_ok (env : Env) (b : Backends) (message t : String)
    (hflow : env.langflowFlowId = "")
    (h : b.llm (llmRequest env message) = .ok (.jobj [("response", .jstr t)])) :
    call_llm env b message = t := by
  unfold call_llm
  rw [hflow, if_neg (by simp), h]
  rfl

lemma call_llm_direct_fail (env : Env) (b : Backends) (message : String)
    (hflow : env.langflowFlowId = "")
    (h : b.llm (llmRequest env message) = .failure) :
    call_llm env b message = llmApology := by
  unfold call_llm
  rw [hflow, if_neg (by simp), h]

lemma call_llm_viaLangflow (env : Env) (b : Backends) (message : String)
    (hflow : env.langflowFlowId ≠ "") :
    call_llm env b message = call_langflow env b message := by
  unfold call_llm
  rw [if_pos hflow]

lemma jambonz_matches_twilio (s : String)
    (h : matchesGoodbye jambonz_goodbye_phrases s = true) :
    matchesGoodbye twilio_goodbye_phrases s = true := by
  simp only [matchesGoodbye, jambonz_goodbye_phrases, twilio_goodbye_phrases,
    List.any_cons, List.any_nil, Bool.or_eq_true] at h ⊢
  tauto

lemma twilio_not_matches_jambonz (s : String)
    (h : matchesGoodbye twilio_goodbye_phrases s = false) :
    matchesGoodbye jambonz_goodbye_phrases s = false := by
  cases hj : matchesGoodbye jambonz_goodbye_phrases s with
  | false => rfl
  | true => rw [jambonz_matches_twilio s hj] at h; exact absurd h (by simp)

lemma matchesGoodbye_empty_twilio :
    matchesGoodbye twilio_goodbye_phrases "" = false := by decide

lemma matchesGoodbye_empty_jambonz :
    matchesGoodbye jambonz_goodbye_phrases "" = false := by decide

lemma matches_ne_empty {phrases : List String} {s : String}
    (hempty : matchesGoodbye phrases "" = false)
    (h : matchesGoodbye phrases s = true) : s ≠ "" := by
  intro hs
  rw [hs, hempty] at h
  exact Bool.false_ne_true h

/-- C1 (counterexample): the utterance "that's all" is in the claimed
closing-phrase set, yet the Jambonz turn logic produces a document that
gathers further speech — not the claimed farewell-plus-hangup — because the
Jambonz handler's phrase list omits "that's all". -/
theorem C1_cex_jambonz_thats_all :
    matchesGoodbye twilio_goodbye_phrases "that's all" = true ∧
    hasGatherJz (jambonz_turn env0 okBackends store0 "that's all").doc = true ∧
    ¬ TerminalJz (jambonz_turn env0 okBackends store0 "that's all").doc := by
  refine ⟨by decide, rfl, ?_⟩
  have hdoc : (jambonz_turn env0 okBackends store0 "that's all").doc =
      [.play (audioUrl env0 okBackends),
       .gather (env0.baseUrl ++ "/jambonz-gather"), .hangup] := rfl
  intro h
  rcases h with ⟨u, hu⟩ | h2
  · rw [hdoc] at hu
    simp at hu
  · rw [hdoc] at h2
    simp at h2

/-- C1 (amended): each turn handler terminates on its own phrase list —
Twilio on all five phrases, Jambonz on the four-phrase list without
"that's all" — producing play-or-say of the fixed farewell followed by
hangup, with no further gather. -/
theorem C1_goodbye_terminates (env : Env) (b : Backends) (store : AudioStore)
    (s : String) :
    (matchesGoodbye twilio_goodbye_phrases s = true →
      TerminalTw (twilio_gather env b store s).doc) ∧
    (matchesGoodbye jambonz_goodbye_phrases s = true →
      TerminalJz (jambonz_turn env b store s).doc) := by
  constructor
  · intro hm
    have hs : s ≠ "" := matches_ne_empty matchesGoodbye_empty_twilio hm
    unfold twilio_gather
    rw [if_neg hs, if_pos hm]
    cases htts : b.tts (ttsRequest env twilioFarewell "en") with
    | ok bytes =>
        rw [call_tts_ok env b store _ _ htts]
        exact Or.inl ⟨_, rfl⟩
    | failure =>
        rw [call_tts_fail env b store _ htts]
        exact Or.inr rfl
  · intro hm
    have hs : s ≠ "" := matches_ne_empty matchesGoodbye_empty_jambonz hm
    unfold jambonz_turn
    rw [if_neg hs, if_pos hm]
    cases htts : b.tts (ttsRequest env jambonzFarewell "en") with
    | ok bytes =>
        rw [call_tts_ok env b store _ _ htts]
        exact Or.inl ⟨_, rfl⟩
    | failure =>
        rw [call_tts_fail env b store _ htts]
        exact Or.inr rfl

/-- C1 (witness): on "okay goodbye" both handlers produce a terminal
document. -/
theorem C1_goodbye_terminates_witness :
    TerminalTw (twilio_gather env0 okBackends store0 "okay goodbye").doc ∧
    TerminalJz (jambonz_turn env0 okBackends store0 "okay goodbye").doc :=
  ⟨(C1_goodbye_terminates env0 okBackends store0 "okay goodbye").1 (by decide),
   (C1_goodbye_terminates env0 okBackends store0 "okay goodbye").2 (by decide)⟩

/-- C2 (code behaviour at the failing input): a Jambonz gather payload whose
`speech.alternatives` list is present but empty makes the handler raise an
unhandled IndexError — `Except.error`, an HTTP 500 with no verb document —
contradicting the spec's rule that every webhook path ends in a valid
response body. -/
theorem C2_empty_alternatives_unhandled :
    jambonz_gather env0 okBackends store0
      (.jobj [("speech", .jobj [("alternatives", .jarr [])])]) = .error () := rfl

/-- Sample backends on which the Respond call (direct and workflow) fails. -/
def failRespondBackends : Backends :=
  { okBackends with llm := fun _ => .failure, langflow := fun _ => .failure }

/-- Sample backends on which only the Synthesize call fails. -/
def ttsDownBackends : Backends :=
  { okBackends with tts := fun _ => .failure }

lemma twilio_nonterminal_doc (env : Env) (b : Backends) (store : AudioStore)
    (s : String) (hs : s ≠ "")
    (hm : matchesGoodbye twilio_goodbye_phrases s = false) :
    NonTerminalTw env (twilio_gather env b store s).doc (call_llm env b s)
      (audioUrl env b) := by
  unfold twilio_gather
  rw [if_neg hs, if_neg (by simp [hm])]
  cases htts : b.tts (ttsRequest env (call_llm env b s) "en") with
  | ok bytes =>
      rw [call_tts_ok env b store _ _ htts]
      exact Or.inl rfl
  | failure =>
      rw [call_tts_fail env b store _ htts]
      exact Or.inr rfl

lemma jambonz_nonterminal_doc (env : Env) (b : Backends) (store : AudioStore)
    (s : String) (hs : s ≠ "")
    (hm : matchesGoodbye jambonz_goodbye_phrases s = false) :
    NonTerminalJz env (jambonz_turn env b store s).doc (call_llm env b s)
      (audioUrl env b) := by
  unfold jambonz_turn
  rw [if_neg hs, if_neg (by simp [hm])]
  cases htts : b.tts (ttsRequest env (call_llm env b s) "en") with
  | ok bytes =>
      rw [call_tts_ok env b store _ _ htts]
      exact Or.inl rfl
  | failure =>
      rw [call_tts_fail env b store _ htts]
      exact Or.inr rfl

/-- C3: when the Respond call fails, the fixed apology of the configured
client becomes the reply text, and both turn handlers proceed to a
non-terminal document that speaks the apology (synthesis of the apology is
attempted: played when it succeeded, said natively otherwise); no transport
failure escapes the handler. -/
theorem C3_respond_failure_apology (env : Env) (b : Backends) (store : AudioStore)
    (s : String)
    (hllm : b.llm (llmRequest env s) = .failure)
    (hwf : b.langflow (langflowRequest env s) = .failure)
    (hs : s ≠ "")
    (hm : matchesGoodbye twilio_goodbye_phrases s = false) :
    (call_llm env b s =
      if env.langflowFlowId = "" then llmApology else langflowApology) ∧
    NonTerminalTw env (twilio_gather env b store s).doc (call_llm env b s)
      (audioUrl env b) ∧
    NonTerminalJz env (jambonz_turn env b store s).doc (call_llm env b s)
      (audioUrl env b) := by
  refine ⟨?_, twilio_nonterminal_doc env b store s hs hm,
    jambonz_nonterminal_doc env b store s hs (twilio_not_matches_jambonz s hm)⟩
  by_cases hflow : env.langflowFlowId = ""
  · rw [if_pos hflow]
    exact call_llm_direct_fail env b s hflow hllm
  · rw [if_neg hflow, call_llm_viaLangflow env b s hflow]
    unfold call_langflow
    rw [hwf]

/-- C3 (witness): with both Respond backends down and utterance "hello", the
reply is the fixed apology and the Twilio document is non-terminal. -/
theorem C3_respond_failure_apology_witness :
    (call_llm env0 failRespondBackends "hello" =
      if env0.langflowFlowId = "" then llmApology else langflowApology) ∧
    NonTerminalTw env0 (twilio_gather env0 failRespondBackends store0 "hello").doc
      (call_llm env0 failRespondBackends "hello") (audioUrl env0 failRespondBackends) ∧
    NonTerminalJz env0 (jambonz_turn env0 failRespondBackends store0 "hello").doc
      (call_llm env0 failRespondBackends "hello") (audioUrl env0 failRespondBackends) :=
  C3_respond_failure_apology env0 failRespondBackends store0 "hello" rfl rfl
    (by decide) (by decide)

/-- C4: when the Synthesize call fails, both handlers emit the provider-native
say of exactly the Respond reply text (no canned substitution, no play verb)
and the audio cache is left unchanged (no artifact reference). -/
theorem C4_tts_failure_say_fallback (env : Env) (b : Backends) (store : AudioStore)
    (s rsp : String)
    (hflow : env.langflowFlowId = "")
    (hllm : b.llm (llmRequest env s) = .ok (.jobj [("response", .jstr rsp)]))
    (htts : ∀ req, b.tts req = .failure)
    (hs : s ≠ "")
    (hm : matchesGoodbye twilio_goodbye_phrases s = false) :
    twilio_gather env b store s =
      ⟨[.say rsp, .gather (env.baseUrl ++ "/gather") [], .say stillThereText, .hangup],
       store⟩ ∧
    jambonz_turn env b store s =
      ⟨[.say rsp, .gather (env.baseUrl ++ "/jambonz-gather"), .hangup], store⟩ := by
  have hai : call_llm env b s = rsp := call_llm_direct_ok env b s rsp hflow hllm
  constructor
  · unfold twilio_gather
    rw [if_neg hs, if_neg (by simp [hm]), call_tts_fail env b store _ (htts _), hai]
  · have hmj := twilio_not_matches_jambonz s hm
    unfold jambonz_turn
    rw [if_neg hs, if_neg (by simp [hmj]), call_tts_fail env b store _ (htts _), hai]

/-- C4 (witness): with Synthesize down, the reply "Sure!" is said natively by
both adapters and nothing is stored. -/
theorem C4_tts_failure_say_fallback_witness :
    twilio_gather env0 ttsDownBackends store0 "What is the weather" =
      ⟨[.say "Sure!", .gather (env0.baseUrl ++ "/gather") [], .say stillThereText,
        .hangup], store0⟩ ∧
    jambonz_turn env0 ttsDownBackends store0 "What is the weather" =
      ⟨[.say "Sure!", .gather (env0.baseUrl ++ "/jambonz-gather"), .hangup], store0⟩ :=
  C4_tts_failure_say_fallback env0 ttsDownBackends store0 "What is the weather" "Sure!"
    rfl rfl (fun _ => rfl) (by decide) (by decide)

/-- Re-prompt text as the specification quotes it. -/
def specReprompt : String := "I didn't catch that, could you repeat?"

/-- C5 (counterexample): on the empty utterance neither handler's document
contains the spec's quoted re-prompt text, even case-insensitively — the
code's re-prompt differs in punctuation ("that. Could" versus "that, could"). -/
theorem C5_cex_reprompt_text :
    twimlSayContainsCI (twilio_gather env0 okBackends store0 "").doc specReprompt = false ∧
    jzSayContainsCI (jambonz_turn env0 okBackends store0 "").doc specReprompt = false :=
  ⟨by decide, by decide⟩

/-- C5 (amended): on the empty utterance each handler returns the fixed
re-prompt "I didn't catch that. Could you repeat?" followed by a new gather,
with the audio cache unchanged; the result does not depend on the backends,
so the Respond client is not invoked. -/
theorem C5_empty_utterance_reprompt (env : Env) (b : Backends) (store : AudioStore) :
    twilio_gather env b store "" =
      ⟨[.say twilioReprompt, .gather (env.baseUrl ++ "/gather") [],
        .say twilioStillNothing, .hangup], store⟩ ∧
    jambonz_turn env b store "" =
      ⟨[.say jambonzReprompt, .gather (env.baseUrl ++ "/jambonz-gather"), .hangup],
       store⟩ :=
  ⟨rfl, rfl⟩

lemma wav_name_ne_dot (s : String) : s ++ ".wav" ≠ "." := by
  intro h
  have hl : (s ++ ".wav").length = ("." : String).length := congrArg String.length h
  rw [String.length_append] at hl
  have h4 : (".wav" : String).length = 4 := rfl
  have h1 : ("." : String).length = 1 := rfl
  omega

lemma wav_name_ne_dotdot (s : String) : s ++ ".wav" ≠ ".." := by
  intro h
  have hl : (s ++ ".wav").length = (".." : String).length := congrArg String.length h
  rw [String.length_append] at hl
  have h4 : (".wav" : String).length = 4 := rfl
  have h2 : (".." : String).length = 2 := rfl
  omega

lemma serve_audio_path_found (fs : Fs) (audioDir : List String) (name : String)
    (bytes : List Nat) (h1 : name ≠ ".") (h2 : name ≠ "..")
    (hfs : fsLookup fs.regular (audioDir ++ [name]) = some bytes) :
    serve_audio_path fs audioDir name = .ok (.fileResp bytes "audio/wav") := by
  unfold serve_audio_path resolveSegment
  rw [if_neg h1, if_neg h2, hfs]

lemma serve_audio_path_notfound (fs : Fs) (audioDir : List String) (name : String)
    (h1 : name ≠ ".") (h2 : name ≠ "..")
    (hfs : fsLookup fs.regular (audioDir ++ [name]) = none)
    (hdir : audioDir ++ [name] ∉ fs.dirs) :
    serve_audio_path fs audioDir name =
      .ok (.jsonErr 404 (.jobj [("error", .jstr "Audio not found")])) := by
  unfold serve_audio_path resolveSegment
  rw [if_neg h1, if_neg h2, hfs, if_neg hdir]

lemma serve_audio_path_dot (fs : Fs) (audioDir : List String)
    (hdirfile : fsLookup fs.regular audioDir = none)
    (hdirdir : audioDir ∈ fs.dirs) :
    serve_audio_path fs audioDir "." = .error () := by
  unfold serve_audio_path resolveSegment
  rw [if_pos rfl, hdirfile, if_pos hdirdir]

/-- C6 (counterexample): Get of "." or ".." — identifiers under which no
artifact was ever stored, reachable through the separator-free route — makes
`send_file` hit an existing directory and raise, an unhandled fault (HTTP
500) instead of the structured 404 the claim requires for every unstored
id. -/
theorem C6_cex_dot_serve_crashes :
    serve_audio_path fs0 ["srv", "audio_cache"] "." = .error () ∧
    serve_audio_path fs0 ["srv", "audio_cache"] ".." = .error () :=
  ⟨rfl, rfl⟩

/-- C6 (amended): a Put through `call_tts` followed by a Get of the stored
`<uuid4>.wav` filename serves the byte-identical content as `audio/wav`, and
a Get of an id naming no entry of the audio directory returns the structured
404 JSON body; but a Get of "." (or "..") resolves to an existing directory,
where `send_file` raises an unhandled fault instead of the 404. -/
theorem C6_store_roundtrip (fs : Fs) (audioDir : List String) (env : Env)
    (b : Backends) (store : AudioStore) (text : String) (bytes : List Nat)
    (unknown : String)
    (htts : b.tts (ttsRequest env text "en") = .ok bytes)
    (hu1 : unknown ≠ ".") (hu2 : unknown ≠ "..")
    (hufile : fsLookup fs.regular (audioDir ++ [unknown]) = none)
    (hudir : audioDir ++ [unknown] ∉ fs.dirs)
    (hdirfile : fsLookup fs.regular audioDir = none)
    (hdirdir : audioDir ∈ fs.dirs) :
    (call_tts env b store text =
       (some (audioUrl env b), ⟨(b.freshId ++ ".wav", bytes) :: store.files⟩) ∧
     serve_audio_path
       ⟨(audioDir ++ [b.freshId ++ ".wav"], bytes) :: fs.regular, fs.dirs⟩
       audioDir (b.freshId ++ ".wav") = .ok (.fileResp bytes "audio/wav")) ∧
    serve_audio_path fs audioDir unknown =
      .ok (.jsonErr 404 (.jobj [("error", .jstr "Audio not found")])) ∧
    serve_audio_path fs audioDir "." = .error () :=
  ⟨⟨call_tts_ok env b store text bytes htts,
    serve_audio_path_found
      ⟨(audioDir ++ [b.freshId ++ ".wav"], bytes) :: fs.regular, fs.dirs⟩
      audioDir (b.freshId ++ ".wav") bytes
      (wav_name_ne_dot b.freshId) (wav_name_ne_dotdot b.freshId)
      (by simp [fsLookup])⟩,
   serve_audio_path_notfound fs audioDir unknown hu1 hu2 hufile hudir,
   serve_audio_path_dot fs audioDir hdirfile hdirdir⟩

/-- C6 (witness): the round trip, the 404 on an unstored name, and the crash
on "." at concrete inputs. -/
theorem C6_store_roundtrip_witness :
    (call_tts env0 okBackends store0 "hi" =
       (some (audioUrl env0 okBackends),
        ⟨(okBackends.freshId ++ ".wav", [82, 73, 70, 70]) :: store0.files⟩) ∧
     serve_audio_path
       ⟨(["srv", "audio_cache"] ++ [okBackends.freshId ++ ".wav"], [82, 73, 70, 70])
          :: fs0.regular, fs0.dirs⟩
       ["srv", "audio_cache"] (okBackends.freshId ++ ".wav") =
       .ok (.fileResp [82, 73, 70, 70] "audio/wav")) ∧
    serve_audio_path fs0 ["srv", "audio_cache"] "nope.wav" =
      .ok (.jsonErr 404 (.jobj [("error", .jstr "Audio not found")])) ∧
    serve_audio_path fs0 ["srv", "audio_cache"] "." = .error () :=
  C6_store_roundtrip fs0 ["srv", "audio_cache"] env0 okBackends store0 "hi"
    [82, 73, 70, 70] "nope.wav" rfl (by decide) (by decide) rfl (by decide) rfl
    (by decide)

/-- Langflow success body whose nested `text` field is absent: the extraction
defaults all the way down to the empty string. -/
def langflowEmptyTextBody : JVal :=
  .jobj [("outputs", .jarr [.jobj [("outputs", .jarr [.jobj []])]])]

/-- Langflow success body whose inner `outputs` list is empty: the extraction
raises IndexError inside the `try`. -/
def langflowBadBody : JVal :=
  .jobj [("outputs", .jarr [.jobj [("outputs", .jarr [])]])]

/-- Sample backends whose workflow call succeeds with `langflowEmptyTextBody`. -/
def langflowEmptyTextBackends : Backends :=
  { okBackends with langflow := fun _ => .ok langflowEmptyTextBody }

/-- Sample backends whose workflow call succeeds with `langflowBadBody`. -/
def langflowBadBodyBackends : Backends :=
  { okBackends with langflow := fun _ => .ok langflowBadBody }

/-- C7 (counterexample): an HTTP-success workflow body with no text at the
fixed path is not treated as a failure — `call_langflow` returns the empty
string itself, which is neither of the fixed fallback utterances. -/
theorem C7_cex_empty_text_propagated :
    call_langflow env0 langflowEmptyTextBackends "hi" = "" ∧
    langflowApology ≠ "" ∧ langflowNoOutputsText ≠ "" :=
  ⟨rfl, by decide, by decide⟩

/-- C7 (amended): an HTTP-success workflow body whose extraction raises
(IndexError/AttributeError inside the `try`) yields the fixed apology, and a
body whose extraction succeeds yields the extracted value as the reply text
even when that text is empty — the empty result is propagated, not replaced
by a fallback. -/
theorem C7_langflow_parse (env : Env) (b : Backends) (message : String)
    (result v : JVal)
    (hresp : b.langflow (langflowRequest env message) = .ok result) :
    (langflowExtract result = .error () → call_langflow env b message = langflowApology) ∧
    (langflowExtract result = .ok v → call_langflow env b message = v.asText) := by
  constructor
  · intro he
    unfold call_langflow
    rw [hresp]
    show (match langflowExtract result with
          | Except.ok w => w.asText
          | Except.error _ => langflowApology) = langflowApology
    rw [he]
  · intro he
    unfold call_langflow
    rw [hresp]
    show (match langflowExtract result with
          | Except.ok w => w.asText
          | Except.error _ => langflowApology) = v.asText
    rw [he]

/-- C7 (witness): the empty-text body propagates the empty string; the
raising body yields the fixed apology. -/
theorem C7_langflow_parse_witness :
    call_langflow env0 langflowEmptyTextBackends "hi" = JVal.asText (.jstr "") ∧
    call_langflow env0 langflowBadBodyBackends "hi" = langflowApology :=
  ⟨(C7_langflow_parse env0 langflowEmptyTextBackends "hi" langflowEmptyTextBody
      (.jstr "") rfl).2 rfl,
   (C7_langflow_parse env0 langflowBadBodyBackends "hi" langflowBadBody
      (.jstr "") rfl).1 rfl⟩

/-- C8 (counterexample): the options object of the direct Respond request has
no `max_tokens` field — its keys are `temperature` and `num_predict`. -/
theorem C8_cex_options_field_names :
    jget (llmOptionsOf (llmRequest env0 "hello")) "max_tokens" = none ∧
    jobjKeys (llmOptionsOf (llmRequest env0 "hello")) = ["temperature", "num_predict"] :=
  ⟨rfl, rfl⟩

/-- C8 (amended): the direct Respond request is a POST whose JSON body carries
the model name, the prompt, and an options object with `temperature` and
`num_predict` (the token-limit field is named `num_predict`, not
`max_tokens`), with a 60-second timeout; the reply text is the `response`
field of the returned JSON. -/
theorem C8_llm_request_shape (env : Env) (b : Backends) (message t : String)
    (hflow : env.langflowFlowId = "")
    (hresp : b.llm (llmRequest env message) = .ok (.jobj [("response", .jstr t)])) :
    (llmRequest env message).method = "POST" ∧
    jget (llmRequest env message).body "model" = some (.jstr "llama3.1:8b") ∧
    jget (llmRequest env message).body "prompt" =
      some (.jstr (env.systemPrompt ++ "\n\nUser: " ++ message ++ "\nAssistant:")) ∧
    jget (llmOptionsOf (llmRequest env message)) "temperature" =
      some (.jnum ((7 : ℚ) / 10)) ∧
    jget (llmOptionsOf (llmRequest env message)) "num_predict" = some (.jnum 150) ∧
    (llmRequest env message).timeoutSecs = 60 ∧
    call_llm env b message = t :=
  ⟨rfl, rfl, rfl, rfl, rfl, rfl, call_llm_direct_ok env b message t hflow hresp⟩

/-- C8 (witness): the request shape and reply extraction at concrete inputs. -/
theorem C8_llm_request_shape_witness :
    (llmRequest env0 "hello").method = "POST" ∧
    jget (llmRequest env0 "hello").body "model" = some (.jstr "llama3.1:8b") ∧
    jget (llmRequest env0 "hello").body "prompt" =
      some (.jstr (env0.systemPrompt ++ "\n\nUser: " ++ "hello" ++ "\nAssistant:")) ∧
    jget (llmOptionsOf (llmRequest env0 "hello")) "temperature" =
      some (.jnum ((7 : ℚ) / 10)) ∧
    jget (llmOptionsOf (llmRequest env0 "hello")) "num_predict" = some (.jnum 150) ∧
    (llmRequest env0 "hello").timeoutSecs = 60 ∧
    call_llm env0 okBackends "hello" = "Sure!" :=
  C8_llm_request_shape env0 okBackends "hello" "Sure!" rfl rfl

/-- Exactly one reply branch in a TwiML document: the leading verb is the
reply, a play reply is the only play verb, a say reply admits no play verb. -/
def replyExclusiveTw (d : List TwimlVerb) : Prop :=
  match d.head? with
  | some (.play _) => countPlayTw d = 1
  | some (.say _) => countPlayTw d = 0
  | _ => False

/-- Exactly one reply branch in a Jambonz document. -/
def replyExclusiveJz (d : List JambonzVerb) : Prop :=
  match d.head? with
  | some (.play _) => countPlayJz d = 1
  | some (.say _) => countPlayJz d = 0
  | _ => False

/-- When the TwiML reply is a native say, its text is non-empty. -/
def headSayNonemptyTw (d : List TwimlVerb) : Prop :=
  match d.head? with
  | some (.say t) => t ≠ ""
  | _ => True

/-- When the Jambonz reply is a native say, its text is non-empty. -/
def headSayNonemptyJz (d : List JambonzVerb) : Prop :=
  match d.head? with
  | some (.say t) => t ≠ ""
  | _ => True

/-- Sample backends on which Respond succeeds with an empty `response` text
and Synthesize fails. -/
def emptyReplyBackends : Backends :=
  { tts := fun _ => .failure
    llm := fun _ => .ok (.jobj [("response", .jstr "")])
    langflow := fun _ => .failure
    freshId := "artifact-1" }

/-- C9 (counterexample): when Respond succeeds with empty text and Synthesize
fails, the Twilio handler emits a non-terminal document whose reply is
`say ""` with no play verb — a non-terminal outcome with neither a non-empty
spokenText nor an audioRef. -/
theorem C9_cex_empty_reply :
    (twilio_gather env0 emptyReplyBackends store0 "hello").doc =
      [.say "", .gather (env0.baseUrl ++ "/gather") [], .say stillThereText, .hangup] ∧
    hasGatherTw (twilio_gather env0 emptyReplyBackends store0 "hello").doc = true ∧
    countPlayTw (twilio_gather env0 emptyReplyBackends store0 "hello").doc = 0 :=
  ⟨rfl, rfl, rfl⟩

lemma twilio_doc_invariants (env : Env) (b : Backends) (store : AudioStore)
    (s : String) :
    replyExclusiveTw (twilio_gather env b store s).doc ∧
    (hasGatherTw (twilio_gather env b store s).doc = true ∨
      (twilio_gather env b store s).doc.getLast? = some .hangup) ∧
    (call_llm env b s ≠ "" → headSayNonemptyTw (twilio_gather env b store s).doc) := by
  unfold twilio_gather
  by_cases hs : s = ""
  · rw [if_pos hs]
    exact ⟨rfl, Or.inl rfl, fun _ => (by decide : twilioReprompt ≠ "")⟩
  · rw [if_neg hs]
    by_cases hm : matchesGoodbye twilio_goodbye_phrases s = true
    · rw [if_pos hm]
      cases htts : b.tts (ttsRequest env twilioFarewell "en") with
      | ok bytes =>
          rw [call_tts_ok env b store _ _ htts]
          exact ⟨rfl, Or.inr rfl, fun _ => trivial⟩
      | failure =>
          rw [call_tts_fail env b store _ htts]
          exact ⟨rfl, Or.inr rfl, fun _ => (by decide : twilioFarewell ≠ "")⟩
    · rw [if_neg hm]
      cases htts : b.tts (ttsRequest env (call_llm env b s) "en") with
      | ok bytes =>
          rw [call_tts_ok env b store _ _ htts]
          exact ⟨rfl, Or.inl rfl, fun _ => trivial⟩
      | failure =>
          rw [call_tts_fail env b store _ htts]
          exact ⟨rfl, Or.inl rfl, fun hne => hne⟩

lemma jambonz_doc_invariants (env : Env) (b : Backends) (store : AudioStore)
    (s : String) :
    replyExclusiveJz (jambonz_turn env b store s).doc ∧
    (hasGatherJz (jambonz_turn env b store s).doc = true ∨
      (jambonz_turn env b store s).doc.getLast? = some .hangup) ∧
    (call_llm env b s ≠ "" → headSayNonemptyJz (jambonz_turn env b store s).doc) := by
  unfold jambonz_turn
  by_cases hs : s = ""
  · rw [if_pos hs]
    exact ⟨rfl, Or.inl rfl, fun _ => (by decide : jambonzReprompt ≠ "")⟩
  · rw [if_neg hs]
    by_cases hm : matchesGoodbye jambonz_goodbye_phrases s = true
    · rw [if_pos hm]
      cases htts : b.tts (ttsRequest env jambonzFarewell "en") with
      | ok bytes =>
          rw [call_tts_ok env b store _ _ htts]
          exact ⟨rfl, Or.inr rfl, fun _ => trivial⟩
      | failure =>
          rw [call_tts_fail env b store _ htts]
          exact ⟨rfl, Or.inr rfl, fun _ => (by decide : jambonzFarewell ≠ "")⟩
    · rw [if_neg hm]
      cases htts : b.tts (ttsRequest env (call_llm env b s) "en") with
      | ok bytes =>
          rw [call_tts_ok env b store _ _ htts]
          exact ⟨rfl, Or.inl rfl, fun _ => trivial⟩
      | failure =>
          rw [call_tts_fail env b store _ htts]
          exact ⟨rfl, Or.inl rfl, fun hne => hne⟩

/-- The reply text a non-empty Twilio turn determines before synthesis: the
fixed farewell on a closing phrase, else the Respond reply. -/
def twilioSpoken (env : Env) (b : Backends) (s : String) : String :=
  if matchesGoodbye twilio_goodbye_phrases s then twilioFarewell
  else call_llm env b s

/-- The reply text a non-empty Jambonz turn determines before synthesis. -/
def jambonzSpoken (env : Env) (b : Backends) (s : String) : String :=
  if matchesGoodbye jambonz_goodbye_phrases s then jambonzFarewell
  else call_llm env b s

lemma twilio_reply_selection (env : Env) (b : Backends) (store : AudioStore)
    (s : String) (hs : s ≠ "") :
    (∀ bytes, b.tts (ttsRequest env (twilioSpoken env b s) "en") = .ok bytes →
      (twilio_gather env b store s).doc.head? = some (.play (audioUrl env b)) ∧
      (twilio_gather env b store s).store =
        ⟨(b.freshId ++ ".wav", bytes) :: store.files⟩) ∧
    (b.tts (ttsRequest env (twilioSpoken env b s) "en") = .failure →
      (twilio_gather env b store s).doc.head? = some (.say (twilioSpoken env b s)) ∧
      (twilio_gather env b store s).store = store) := by
  by_cases hm : matchesGoodbye twilio_goodbye_phrases s = true
  · have hsp : twilioSpoken env b s = twilioFarewell := by
      unfold twilioSpoken
      rw [if_pos hm]
    rw [hsp]
    unfold twilio_gather
    rw [if_neg hs, if_pos hm]
    constructor
    · intro bytes htts
      rw [call_tts_ok env b store _ _ htts]
      exact ⟨rfl, rfl⟩
    · intro htts
      rw [call_tts_fail env b store _ htts]
      exact ⟨rfl, rfl⟩
  · have hsp : twilioSpoken env b s = call_llm env b s := by
      unfold twilioSpoken
      rw [if_neg hm]
    rw [hsp]
    unfold twilio_gather
    rw [if_neg hs, if_neg hm]
    constructor
    · intro bytes htts
      rw [call_tts_ok env b store _ _ htts]
      exact ⟨rfl, rfl⟩
    · intro htts
      rw [call_tts_fail env b store _ htts]
      exact ⟨rfl, rfl⟩

lemma jambonz_reply_selection (env : Env) (b : Backends) (store : AudioStore)
    (s : String) (hs : s ≠ "") :
    (∀ bytes, b.tts (ttsRequest env (jambonzSpoken env b s) "en") = .ok bytes →
      (jambonz_turn env b store s).doc.head? = some (.play (audioUrl env b)) ∧
      (jambonz_turn env b store s).store =
        ⟨(b.freshId ++ ".wav", bytes) :: store.files⟩) ∧
    (b.tts (ttsRequest env (jambonzSpoken env b s) "en") = .failure →
      (jambonz_turn env b store s).doc.head? = some (.say (jambonzSpoken env b s)) ∧
      (jambonz_turn env b store s).store = store) := by
  by_cases hm : matchesGoodbye jambonz_goodbye_phrases s = true
  · have hsp : jambonzSpoken env b s = jambonzFarewell := by
      unfold jambonzSpoken
      rw [if_pos hm]
    rw [hsp]
    unfold jambonz_turn
    rw [if_neg hs, if_pos hm]
    constructor
    · intro bytes htts
      rw [call_tts_ok env b store _ _ htts]
      exact ⟨rfl, rfl⟩
    · intro htts
      rw [call_tts_fail env b store _ htts]
      exact ⟨rfl, rfl⟩
  · have hsp : jambonzSpoken env b s = call_llm env b s := by
      unfold jambonzSpoken
      rw [if_neg hm]
    rw [hsp]
    unfold jambonz_turn
    rw [if_neg hs, if_neg hm]
    constructor
    · intro bytes htts
      rw [call_tts_ok env b store _ _ htts]
      exact ⟨rfl, rfl⟩
    · intro htts
      rw [call_tts_fail env b store _ htts]
      exact ⟨rfl, rfl⟩

/-- C9 (amended): every document of either turn handler has exactly one reply
branch and always gathers further speech or ends in hangup; the reply branch
is selected by synthesis — play of the artifact URL with the byte-exact store
extension whenever synthesis succeeded, else the native say of exactly the
determined reply text with the store unchanged (on an empty utterance, the
say of the fixed re-prompt with the store unchanged); and whenever the
determined reply text is non-empty, a native-say reply is non-empty (the
invariant can fail only when the Respond backend returns empty text while
synthesis fails). -/
theorem C9_doc_exclusive_reply (env : Env) (b : Backends) (store : AudioStore)
    (s : String) :
    (replyExclusiveTw (twilio_gather env b store s).doc ∧
     (hasGatherTw (twilio_gather env b store s).doc = true ∨
       (twilio_gather env b store s).doc.getLast? = some .hangup) ∧
     (call_llm env b s ≠ "" → headSayNonemptyTw (twilio_gather env b store s).doc)) ∧
    (replyExclusiveJz (jambonz_turn env b store s).doc ∧
     (hasGatherJz (jambonz_turn env b store s).doc = true ∨
       (jambonz_turn env b store s).doc.getLast? = some .hangup) ∧
     (call_llm env b s ≠ "" → headSayNonemptyJz (jambonz_turn env b store s).doc)) ∧
    (s ≠ "" →
      ((∀ bytes, b.tts (ttsRequest env (twilioSpoken env b s) "en") = .ok bytes →
         (twilio_gather env b store s).doc.head? = some (.play (audioUrl env b)) ∧
         (twilio_gather env b store s).store =
           ⟨(b.freshId ++ ".wav", bytes) :: store.files⟩) ∧
       (b.tts (ttsRequest env (twilioSpoken env b s) "en") = .failure →
         (twilio_gather env b store s).doc.head? = some (.say (twilioSpoken env b s)) ∧
         (twilio_gather env b store s).store = store)) ∧
      ((∀ bytes, b.tts (ttsRequest env (jambonzSpoken env b s) "en") = .ok bytes →
         (jambonz_turn env b store s).doc.head? = some (.play (audioUrl env b)) ∧
         (jambonz_turn env b store s).store =
           ⟨(b.freshId ++ ".wav", bytes) :: store.files⟩) ∧
       (b.tts (ttsRequest env (jambonzSpoken env b s) "en") = .failure →
         (jambonz_turn env b store s).doc.head? = some (.say (jambonzSpoken env b s)) ∧
         (jambonz_turn env b store s).store = store))) ∧
    (s = "" →
      (twilio_gather env b store s).doc.head? = some (.say twilioReprompt) ∧
      (twilio_gather env b store s).store = store ∧
      (jambonz_turn env b store s).doc.head? = some (.say jambonzReprompt) ∧
      (jambonz_turn env b store s).store = store) :=
  ⟨twilio_doc_invariants env b store s, jambonz_doc_invariants env b store s,
   fun hs => ⟨twilio_reply_selection env b store s hs,
              jambonz_reply_selection env b store s hs⟩,
   fun hs => by subst hs; exact ⟨rfl, rfl, rfl, rfl⟩⟩

/-- C9 (witness): at concrete turns the reply branch follows synthesis — play
of the artifact URL when the store was extended, say of exactly the
determined reply when synthesis failed — and the invariants hold. -/
theorem C9_doc_exclusive_reply_witness :
    replyExclusiveTw (twilio_gather env0 okBackends store0 "hello").doc ∧
    headSayNonemptyTw (twilio_gather env0 okBackends store0 "hello").doc ∧
    (twilio_gather env0 okBackends store0 "hello").doc.head? =
      some (.play (audioUrl env0 okBackends)) ∧
    (twilio_gather env0 ttsDownBackends store0 "hello").doc.head? =
      some (.say (twilioSpoken env0 ttsDownBackends "hello")) ∧
    (jambonz_turn env0 okBackends store0 "hello").doc.head? =
      some (.play (audioUrl env0 okBackends)) :=
  ⟨(C9_doc_exclusive_reply env0 okBackends store0 "hello").1.1,
   (C9_doc_exclusive_reply env0 okBackends store0 "hello").1.2.2 (by decide),
   (((C9_doc_exclusive_reply env0 okBackends store0 "hello").2.2.1
       (by decide)).1.1 [82, 73, 70, 70] rfl).1,
   (((C9_doc_exclusive_reply env0 ttsDownBackends store0 "hello").2.2.1
       (by decide)).1.2 rfl).1,
   (((C9_doc_exclusive_reply env0 okBackends store0 "hello").2.2.1
       (by decide)).2.1 [82, 73, 70, 70] rfl).1⟩

/-- C10: the public artifact identifier is the full filename
`<uuid4>.wav` — `call_tts` stores under that name and returns a URL ending in
it — and the retrieval route, whose parameter holds no path separator, serves
with mimetype `audio/wav` exactly the bytes of the regular file named by that
single segment inside the audio directory: given that the directory and its
parent are directories (not regular files), a request can never read a file
outside the directory, whatever the filename's extension. -/
theorem C10_audio_route_safety (fs : Fs) (audioDir : List String)
    (filename : String) (bytes : List Nat) (mt : String) (env : Env)
    (b : Backends) (store : AudioStore) (text : String) (tbytes : List Nat)
    (hroute : routeMatchesAudio filename = true)
    (hdir : fsLookup fs.regular audioDir = none)
    (hparent : fsLookup fs.regular audioDir.dropLast = none)
    (hserve : serve_audio_path fs audioDir filename = .ok (.fileResp bytes mt))
    (htts : b.tts (ttsRequest env text "en") = .ok tbytes) :
    (mt = "audio/wav" ∧ fsLookup fs.regular (audioDir ++ [filename]) = some bytes) ∧
    call_tts env b store text =
      (some (env.baseUrl ++ "/audio/" ++ (b.freshId ++ ".wav")),
       ⟨(b.freshId ++ ".wav", tbytes) :: store.files⟩) := by
  refine ⟨?_, call_tts_ok env b store text tbytes htts⟩
  unfold serve_audio_path at hserve
  split at hserve
  next bs hfs =>
    have hbm : bs = bytes ∧ "audio/wav" = mt := by
      have := hserve
      injection this with h1
      injection h1 with h2 h3
      exact ⟨h2, h3⟩
    by_cases h1 : filename = "."
    · rw [resolveSegment, if_pos h1, hdir] at hfs
      exact absurd hfs (by simp)
    · by_cases h2 : filename = ".."
      · rw [resolveSegment, if_neg h1, if_pos h2, hparent] at hfs
        exact absurd hfs (by simp)
      · rw [resolveSegment, if_neg h1, if_neg h2] at hfs
        rw [hbm.1] at hfs
        exact ⟨hbm.2.symm, hfs⟩
  next hfs =>
    split at hserve
    · exact absurd hserve (by simp)
    · exact absurd hserve (by simp)

/-- C10 (witness): the file inside the directory is served byte-exactly as
`audio/wav` despite its `.mp3` name, and the stored artifact name is the
URL's `<uuid4>.wav` segment. -/
theorem C10_audio_route_safety_witness :
    (("audio/wav" : String) = "audio/wav" ∧
      fsLookup fs0.regular (["srv", "audio_cache"] ++ ["x.mp3"]) = some [9, 9]) ∧
    call_tts env0 okBackends store0 "hi" =
      (some (env0.baseUrl ++ "/audio/" ++ (okBackends.freshId ++ ".wav")),
       ⟨(okBackends.freshId ++ ".wav", [82, 73, 70, 70]) :: store0.files⟩) :=
  C10_audio_route_safety fs0 ["srv", "audio_cache"] "x.mp3" [9, 9] "audio/wav"
    env0 okBackends store0 "hi" [82, 73, 70, 70]
    (by decide) rfl rfl rfl rfl

end Hotline
